import Mathlib

/- Shallow embedding of the EmoGo backend (src/main.py): a FastAPI service over
   MongoDB with three collections (vlogs, sentiments, gps), create and list
   handlers, a base64 video download endpoint, and bulk JSON export endpoints. -/

/-- Timestamps (Python datetime values) are modelled abstractly; the handlers
only store and compare them, never compute with them. -/
abbrev DateTime := Nat

/-- A MongoDB ObjectId, identified by its 24-character hex string rendering. -/
structure ObjectId where
  hex : String
deriving DecidableEq

/-- Python str() on an ObjectId: its 24-character hex string. -/
def oidToString (o : ObjectId) : String := o.hex

/-- BSON values occurring in this system's documents. -/
inductive Value where
  | str : String → Value
  | num : Rat → Value
  | time : DateTime → Value
  | oid : ObjectId → Value
  | none_ : Value
deriving DecidableEq

/-- A BSON document / Python dict: an ordered list of key-value fields. -/
abbrev Doc := List (String × Value)

/-- Dictionary lookup, doc.get(k) (and doc[k] when the key is present). -/
def getField : Doc → String → Option Value
  | [], _ => none
  | (k, v) :: rest, key => if k = key then some v else getField rest key

/-- Dictionary assignment doc[k] = v: replaces the value in place if the key
exists (keeping its position), otherwise appends the new key at the end. -/
def setField : Doc → String → Value → Doc
  | [], k, v => [(k, v)]
  | (k1, v1) :: rest, k, v =>
    if k1 = k then (k, v) :: rest else (k1, v1) :: setField rest k v

/-- Python str() on the BSON values. Only values stored under "_id" reach it
in this system — ObjectIds, or strings after a first serialization — so the
renderings of the remaining constructors are immaterial placeholders. -/
def pyStr : Value → String
  | Value.str s => s
  | Value.oid o => oidToString o
  | Value.num q => toString q.num ++ "/" ++ toString q.den
  | Value.time t => toString t
  | Value.none_ => "None"

/-- serialize_doc from src/main.py: doc["_id"] = str(doc["_id"]).  The source
also maps None to None for a missing document; on a dict, a missing "_id" key
would raise KeyError, modelled here as none. -/
def serialize_doc (doc : Doc) : Option Doc :=
  match getField doc "_id" with
  | none => none
  | some v => some (setField doc "_id" (Value.str (pyStr v)))

/-- A MongoDB equality query: a document matches when every queried field is
present with the queried value. -/
def docMatches (d : Doc) (q : List (String × Value)) : Bool :=
  q.all (fun kv => getField d kv.1 == some kv.2)

/-- The database: one list of stored documents per collection, in insertion
order (the store-default order returned by unsorted finds). -/
structure DB where
  vlogs : List Doc
  sentiments : List Doc
  gps : List Doc
deriving DecidableEq

/-- collection.insert_one(d): the store generates a fresh ObjectId, adds it to
the document under "_id" and appends the document; the result carries the
generated inserted_id.  The fresh id is supplied by the environment. -/
def insert_one (coll : List Doc) (fresh : ObjectId) (d : Doc) :
    List Doc × ObjectId :=
  (coll ++ [setField d "_id" (Value.oid fresh)], fresh)

/-- collection.find(query).to_list(limit): all matching documents in store
order, capped at limit. -/
def findToList (coll : List Doc) (q : List (String × Value)) (limit : Nat) :
    List Doc :=
  (coll.filter (fun d => docMatches d q)).take limit

/-- collection.find_one(query): the first matching document, if any. -/
def find_one (coll : List Doc) (q : List (String × Value)) : Option Doc :=
  coll.find? (fun d => docMatches d q)

/-- Pydantic model VlogEntry: optional fields default to None. -/
structure VlogEntry where
  user_id : String
  video_url : Option String
  video_data : Option String
  description : Option String
  timestamp : Option DateTime
deriving DecidableEq

/-- Pydantic model SentimentEntry. -/
structure SentimentEntry where
  user_id : String
  sentiment : String
  score : Option Rat
  timestamp : Option DateTime
deriving DecidableEq

/-- Pydantic model GPSEntry. -/
structure GPSEntry where
  user_id : String
  latitude : Rat
  longitude : Rat
  accuracy : Option Rat
  timestamp : Option DateTime
deriving DecidableEq

/-- An optional string field as dumped into a dict (None or the string). -/
def optStr : Option String → Value
  | none => Value.none_
  | some s => Value.str s

/-- An optional numeric field as dumped into a dict. -/
def optNum : Option Rat → Value
  | none => Value.none_
  | some q => Value.num q

/-- An optional datetime field as dumped into a dict. -/
def optTime : Option DateTime → Value
  | none => Value.none_
  | some t => Value.time t

/-- vlog.model_dump(): the entry as a dict, optional fields dumped as None. -/
def vlogDict (v : VlogEntry) : Doc :=
  [("user_id", Value.str v.user_id),
   ("video_url", optStr v.video_url),
   ("video_data", optStr v.video_data),
   ("description", optStr v.description),
   ("timestamp", optTime v.timestamp)]

/-- sentiment.model_dump(). -/
def sentimentDict (s : SentimentEntry) : Doc :=
  [("user_id", Value.str s.user_id),
   ("sentiment", Value.str s.sentiment),
   ("score", optNum s.score),
   ("timestamp", optTime s.timestamp)]

/-- gps.model_dump(). -/
def gpsDict (g : GPSEntry) : Doc :=
  [("user_id", Value.str g.user_id),
   ("latitude", Value.num g.latitude),
   ("longitude", Value.num g.longitude),
   ("accuracy", optNum g.accuracy),
   ("timestamp", optTime g.timestamp)]

/-- The JSON body returned by the create endpoints. -/
structure CreateResponse where
  id : String
  message : String
deriving DecidableEq

/-- POST /vlogs: dump the entry, fill a server-side timestamp when the client
sent none, insert one document, and return the generated id as a string.
`now` is the value of datetime.utcnow() at the moment of handling and `fresh`
the ObjectId the store generates for this insert. -/
def create_vlog (now : DateTime) (fresh : ObjectId) (db : DB)
    (vlog : VlogEntry) : DB × CreateResponse :=
  let d0 := vlogDict vlog
  let d1 := if getField d0 "timestamp" = some Value.none_
            then setField d0 "timestamp" (Value.time now) else d0
  let result := insert_one db.vlogs fresh d1
  (⟨result.1, db.sentiments, db.gps⟩,
   ⟨oidToString result.2, "Vlog created successfully"⟩)

/-- POST /sentiments: same shape as create_vlog. -/
def create_sentiment (now : DateTime) (fresh : ObjectId) (db : DB)
    (sentiment : SentimentEntry) : DB × CreateResponse :=
  let d0 := sentimentDict sentiment
  let d1 := if getField d0 "timestamp" = some Value.none_
            then setField d0 "timestamp" (Value.time now) else d0
  let result := insert_one db.sentiments fresh d1
  (⟨db.vlogs, result.1, db.gps⟩,
   ⟨oidToString result.2, "Sentiment created successfully"⟩)

/-- POST /gps: same shape as create_vlog. -/
def create_gps (now : DateTime) (fresh : ObjectId) (db : DB)
    (gps : GPSEntry) : DB × CreateResponse :=
  let d0 := gpsDict gps
  let d1 := if getField d0 "timestamp" = some Value.none_
            then setField d0 "timestamp" (Value.time now) else d0
  let result := insert_one db.gps fresh d1
  (⟨db.vlogs, db.sentiments, result.1⟩,
   ⟨oidToString result.2, "GPS data created successfully"⟩)

/-- The query dict built by the list handlers: query = dict(); if user_id:
query["user_id"] = user_id.  A None or empty (falsy) user_id leaves the query
empty. -/
def listQuery (user_id : Option String) : List (String × Value) :=
  match user_id with
  | none => []
  | some u => if u = "" then [] else [("user_id", Value.str u)]

/-- GET /vlogs: filter by owner when a truthy user_id is given, cap at limit
(declared default 100), serialize each document. -/
def get_vlogs (db : DB) (user_id : Option String) (limit : Nat := 100) :
    List (Option Doc) :=
  (findToList db.vlogs (listQuery user_id) limit).map serialize_doc

/-- GET /sentiments: same shape as get_vlogs. -/
def get_sentiments (db : DB) (user_id : Option String) (limit : Nat := 100) :
    List (Option Doc) :=
  (findToList db.sentiments (listQuery user_id) limit).map serialize_doc

/-- GET /gps: same shape as get_vlogs. -/
def get_gps (db : DB) (user_id : Option String) (limit : Nat := 100) :
    List (Option Doc) :=
  (findToList db.gps (listQuery user_id) limit).map serialize_doc

/-- GET /export/vlogs: unfiltered find capped at 1000. -/
def export_vlogs (db : DB) : List (Option Doc) :=
  (findToList db.vlogs [] 1000).map serialize_doc

/-- GET /export/sentiments. -/
def export_sentiments (db : DB) : List (Option Doc) :=
  (findToList db.sentiments [] 1000).map serialize_doc

/-- GET /export/gps. -/
def export_gps (db : DB) : List (Option Doc) :=
  (findToList db.gps [] 1000).map serialize_doc

/-- Whether bson.ObjectId(s) accepts the string: exactly 24 hex digits. -/
def isValidOidString (s : String) : Bool :=
  s.length == 24 && s.data.all (fun c => c.isDigit
    || (('a' ≤ c) && (c ≤ 'f')) || (('A' ≤ c) && (c ≤ 'F')))

/-- bson.ObjectId(s): the parsed key, or none when the constructor raises. -/
def parseObjectId (s : String) : Option ObjectId :=
  if isValidOidString s then some ⟨s⟩ else none

/-- The 6-bit value of a standard base64 alphabet character. -/
def b64CharVal (c : Char) : Option Nat :=
  if ('A' ≤ c) && (c ≤ 'Z') then some (c.toNat - 65)
  else if ('a' ≤ c) && (c ≤ 'z') then some (c.toNat - 71)
  else if ('0' ≤ c) && (c ≤ '9') then some (c.toNat + 4)
  else if c == '+' then some 62
  else if c == '/' then some 63
  else none

/-- Decode a base64 character stream four characters at a time, honouring
trailing '=' padding; a malformed group fails (binascii.Error). -/
def decodeQuads : List Char → Option (List Nat)
  | [] => some []
  | [a, b, '=', '='] =>
    match b64CharVal a, b64CharVal b with
    | some va, some vb => some [va * 4 + vb / 16]
    | _, _ => none
  | [a, b, c, '='] =>
    match b64CharVal a, b64CharVal b, b64CharVal c with
    | some va, some vb, some vc =>
      some [va * 4 + vb / 16, (vb % 16) * 16 + vc / 4]
    | _, _, _ => none
  | a :: b :: c :: d :: rest =>
    match b64CharVal a, b64CharVal b, b64CharVal c, b64CharVal d,
        decodeQuads rest with
    | some va, some vb, some vc, some vd, some tail =>
      some ((va * 4 + vb / 16) :: ((vb % 16) * 16 + vc / 4)
        :: ((vc % 4) * 64 + vd) :: tail)
    | _, _, _, _, _ => none
  | _ => none

/-- Python base64.b64decode with the default validate=False: characters
outside the alphabet (other than '=') are discarded, then the stream is
decoded in groups of four; improper padding raises, modelled as none. -/
def b64decode (s : String) : Option (List Nat) :=
  decodeQuads (s.data.filter (fun c => (b64CharVal c).isSome || c == '='))

/-- The outcome of GET /vlogs/{vlog_id}/download. -/
inductive DownloadResult where
  | invalidId : DownloadResult
  | notFound : String → DownloadResult
  | decodeError : DownloadResult
  | ok : List Nat → String → String → DownloadResult
deriving DecidableEq

/-- The HTTP status of a download outcome: 400 invalid id, 404 not found,
500 decode failure, 200 success. -/
def statusOf : DownloadResult → Nat
  | DownloadResult.invalidId => 400
  | DownloadResult.notFound _ => 404
  | DownloadResult.decodeError => 500
  | DownloadResult.ok _ _ _ => 200

/-- Python truthiness of an optional dict value, as tested by
`if not video_data`. -/
def pyTruthy : Option Value → Bool
  | none => false
  | some Value.none_ => false
  | some (Value.str s) => !(s == "")
  | some (Value.num q) => !(q == 0)
  | some (Value.time _) => true
  | some (Value.oid _) => true

/-- GET /vlogs/{vlog_id}/download.  The source wraps both ObjectId(vlog_id)
and the find_one store call in one try whose except returns the 400
invalid-id response; `storeOk` models whether the store lookup raises (for
example a connectivity failure).  Then: missing record → 404, falsy
video_data → 404, base64 decode failure → 500, otherwise a 200 response with
the decoded bytes, media type video/mp4 and an attachment filename
vlog_<id>.mp4. -/
def download_vlog_video (storeOk : Bool) (db : DB) (vlog_id : String) :
    DownloadResult :=
  match parseObjectId vlog_id, storeOk with
  | none, _ => DownloadResult.invalidId
  | some _, false => DownloadResult.invalidId
  | some oid, true =>
    match find_one db.vlogs [("_id", Value.oid oid)] with
    | none => DownloadResult.notFound "Vlog not found"
    | some vlog =>
      let video_data := getField vlog "video_data"
      if !pyTruthy video_data then
        DownloadResult.notFound "No video data available for this vlog"
      else
        match video_data with
        | some (Value.str s) =>
          match b64decode s with
          | none => DownloadResult.decodeError
          | some video_bytes =>
            DownloadResult.ok video_bytes "video/mp4"
              ("attachment; filename=vlog_" ++ vlog_id ++ ".mp4")
        | _ => DownloadResult.decodeError

/- Helper lemmas on dictionary update and serialization. -/

theorem getField_setField_self (d : Doc) (k : String) (v : Value) :
    getField (setField d k v) k = some v := by
  induction d with
  | nil => simp [setField, getField]
  | cons hd tl ih =>
    obtain ⟨k1, v1⟩ := hd
    by_cases h : k1 = k
    · simp [setField, h, getField]
    · simp [setField, h, getField, ih]

theorem getField_setField_ne (d : Doc) (k k2 : String) (v : Value)
    (h : k2 ≠ k) : getField (setField d k v) k2 = getField d k2 := by
  induction d with
  | nil => simp [setField, getField, h.symm]
  | cons hd tl ih =>
    obtain ⟨k1, v1⟩ := hd
    by_cases h1 : k1 = k
    · subst h1
      simp [setField, getField, h.symm]
    · simp [setField, h1, getField, ih]

theorem setField_setField (d : Doc) (k : String) (v w : Value) :
    setField (setField d k v) k w = setField d k w := by
  induction d with
  | nil => simp [setField]
  | cons hd tl ih =>
    obtain ⟨k1, v1⟩ := hd
    by_cases h : k1 = k
    · simp [setField, h]
    · simp [setField, h, ih]

theorem serialize_doc_eq (d d2 : Doc) (h : serialize_doc d = some d2) :
    ∃ v, getField d "_id" = some v
      ∧ d2 = setField d "_id" (Value.str (pyStr v)) := by
  unfold serialize_doc at h
  cases hid : getField d "_id" with
  | none => rw [hid] at h; exact absurd h (by simp)
  | some v =>
    rw [hid] at h
    exact ⟨v, rfl, by simpa using h.symm⟩

/-- Claim C8: identifier serialization is idempotent — applying serialize_doc
to an already-serialized document changes nothing — and every field other
than the "_id" key passes through unmodified. -/
theorem claim_c8 (d d2 : Doc) (h : serialize_doc d = some d2) :
    serialize_doc d2 = some d2
      ∧ ∀ k, k ≠ "_id" → getField d2 k = getField d k := by
  obtain ⟨v, hv, rfl⟩ := serialize_doc_eq d d2 h
  refine ⟨?_, ?_⟩
  · unfold serialize_doc
    rw [getField_setField_self]
    simp [pyStr, setField_setField]
  · intro k hk
    exact getField_setField_ne d "_id" k _ hk

/-- A stored vlog document and its serialized form, instantiating claim C8. -/
def exDoc8 : Doc :=
  [("user_id", Value.str "user_001"),
   ("_id", Value.oid ⟨"aaaaaaaaaaaaaaaaaaaaaaaa"⟩)]

/-- The serialized form of exDoc8. -/
def exDoc8s : Doc :=
  [("user_id", Value.str "user_001"),
   ("_id", Value.str "aaaaaaaaaaaaaaaaaaaaaaaa")]

/-- Claim C8 instantiated at a concrete document. -/
theorem claim_c8_witness :
    serialize_doc exDoc8 = some exDoc8s
      ∧ serialize_doc exDoc8s = some exDoc8s
      ∧ getField exDoc8s "user_id" = getField exDoc8 "user_id" :=
  ⟨by decide, (claim_c8 exDoc8 exDoc8s (by decide)).1,
   (claim_c8 exDoc8 exDoc8s (by decide)).2 "user_id" (by decide)⟩

/-- Claim C10: an empty-string owner filter is falsy in the handlers' truthy
test, so it is treated exactly like omitting the filter in all three list
operations: the query is unconstrained. -/
theorem claim_c10 (db : DB) (n : Nat) :
    get_vlogs db (some "") n = get_vlogs db none n
      ∧ get_sentiments db (some "") n = get_sentiments db none n
      ∧ get_gps db (some "") n = get_gps db none n :=
  ⟨rfl, rfl, rfl⟩

/-- Claim C4: every list operation returns at most `limit` records even when
more exist; the interactive default caps at 100 and the bulk-export variant
at 1000. -/
theorem claim_c4 (db : DB) (u : Option String) (n : Nat) :
    (get_vlogs db u n).length ≤ n
      ∧ (get_sentiments db u n).length ≤ n
      ∧ (get_gps db u n).length ≤ n
      ∧ (get_vlogs db u).length ≤ 100
      ∧ (get_sentiments db u).length ≤ 100
      ∧ (get_gps db u).length ≤ 100
      ∧ (export_vlogs db).length ≤ 1000
      ∧ (export_sentiments db).length ≤ 1000
      ∧ (export_gps db).length ≤ 1000 := by
  refine ⟨?_, ?_, ?_, ?_, ?_, ?_, ?_, ?_, ?_⟩ <;>
    simp [get_vlogs, get_sentiments, get_gps, export_vlogs,
      export_sentiments, export_gps, findToList, List.length_take]

/-- Claim C1: each create handler (vlog, sentiment, GPS) persists a document
whose timestamp is the client-supplied one when present, and the current UTC
time `now` at the moment of handling otherwise. -/
theorem claim_c1 (now : DateTime) (fresh : ObjectId) (db : DB)
    (v : VlogEntry) (s : SentimentEntry) (g : GPSEntry) :
    (∃ d, ((create_vlog now fresh db v).1).vlogs = db.vlogs ++ [d]
       ∧ getField d "timestamp" = some (Value.time (v.timestamp.getD now)))
      ∧ (∃ d, ((create_sentiment now fresh db s).1).sentiments
            = db.sentiments ++ [d]
       ∧ getField d "timestamp" = some (Value.time (s.timestamp.getD now)))
      ∧ (∃ d, ((create_gps now fresh db g).1).gps = db.gps ++ [d]
       ∧ getField d "timestamp" = some (Value.time (g.timestamp.getD now))) := by
  refine ⟨⟨_, rfl, ?_⟩, ⟨_, rfl, ?_⟩, ⟨_, rfl, ?_⟩⟩
  · cases h : v.timestamp <;>
      simp [create_vlog, insert_one, vlogDict, h, optStr, optTime,
        getField, setField]
  · cases h : s.timestamp <;>
      simp [create_sentiment, insert_one, sentimentDict, h, optNum, optTime,
        getField, setField]
  · cases h : g.timestamp <;>
      simp [create_gps, insert_one, gpsDict, h, optNum, optTime,
        getField, setField]

/-- Claim C2: each create operation appends exactly one new document to its
kind's collection, leaves the other collections untouched, stores the
store-generated id in that document, and returns that id rendered as a
string together with a success message. -/
theorem claim_c2 (now : DateTime) (fresh : ObjectId) (db : DB)
    (v : VlogEntry) (s : SentimentEntry) (g : GPSEntry) :
    (∃ d, (create_vlog now fresh db v).1
          = ⟨db.vlogs ++ [d], db.sentiments, db.gps⟩
       ∧ getField d "_id" = some (Value.oid fresh)
       ∧ (create_vlog now fresh db v).2
          = ⟨oidToString fresh, "Vlog created successfully"⟩)
      ∧ (∃ d, (create_sentiment now fresh db s).1
          = ⟨db.vlogs, db.sentiments ++ [d], db.gps⟩
       ∧ getField d "_id" = some (Value.oid fresh)
       ∧ (create_sentiment now fresh db s).2
          = ⟨oidToString fresh, "Sentiment created successfully"⟩)
      ∧ (∃ d, (create_gps now fresh db g).1
          = ⟨db.vlogs, db.sentiments, db.gps ++ [d]⟩
       ∧ getField d "_id" = some (Value.oid fresh)
       ∧ (create_gps now fresh db g).2
          = ⟨oidToString fresh, "GPS data created successfully"⟩) :=
  ⟨⟨_, rfl, getField_setField_self _ _ _, rfl⟩,
   ⟨_, rfl, getField_setField_self _ _ _, rfl⟩,
   ⟨_, rfl, getField_setField_self _ _ _, rfl⟩⟩

/-- Any record returned by a list handler under a non-empty owner filter
carries the queried user_id. -/
theorem mem_filtered_user_id (coll : List Doc) (u : String) (n : Nat)
    (hu : u ≠ "") (d : Doc)
    (hod : some d ∈ (findToList coll (listQuery (some u)) n).map serialize_doc) :
    getField d "user_id" = some (Value.str u) := by
  simp only [findToList, listQuery, hu, if_false, List.mem_map] at hod
  obtain ⟨d0, hmem, hser⟩ := hod
  have hmem2 : d0 ∈ List.filter
      (fun d => docMatches d [("user_id", Value.str u)]) coll :=
    List.take_subset n _ hmem
  have h0 : getField d0 "user_id" = some (Value.str u) := by
    simpa [docMatches] using List.of_mem_filter hmem2
  obtain ⟨v, hv, rfl⟩ := serialize_doc_eq d0 d hser
  rw [getField_setField_ne _ _ _ _ (by decide)]
  exact h0

/-- Claim C3 as amended: listing with a non-empty user_id filter returns only
records whose user_id equals the filter value, and listing without the
filter applies no query constraint, returning the stored records across all
owners (up to the cap). -/
theorem claim_c3 (db : DB) (u : String) (n : Nat) (hu : u ≠ "") :
    (∀ od ∈ get_vlogs db (some u) n, ∀ d, od = some d →
        getField d "user_id" = some (Value.str u))
      ∧ (∀ od ∈ get_sentiments db (some u) n, ∀ d, od = some d →
        getField d "user_id" = some (Value.str u))
      ∧ (∀ od ∈ get_gps db (some u) n, ∀ d, od = some d →
        getField d "user_id" = some (Value.str u))
      ∧ get_vlogs db none n = (db.vlogs.take n).map serialize_doc
      ∧ get_sentiments db none n = (db.sentiments.take n).map serialize_doc
      ∧ get_gps db none n = (db.gps.take n).map serialize_doc := by
  refine ⟨?_, ?_, ?_, ?_, ?_, ?_⟩
  · intro od hod d hd
    exact mem_filtered_user_id db.vlogs u n hu d (hd ▸ hod)
  · intro od hod d hd
    exact mem_filtered_user_id db.sentiments u n hu d (hd ▸ hod)
  · intro od hod d hd
    exact mem_filtered_user_id db.gps u n hu d (hd ▸ hod)
  · simp [get_vlogs, findToList, listQuery, docMatches]
  · simp [get_sentiments, findToList, listQuery, docMatches]
  · simp [get_gps, findToList, listQuery, docMatches]

/-- A database holding a single vlog owned by "a". -/
def exDB3 : DB :=
  ⟨[[("user_id", Value.str "a"),
     ("_id", Value.oid ⟨"aaaaaaaaaaaaaaaaaaaaaaaa"⟩)]], [], []⟩

/-- Claim C3 as frozen is false on the code: supplying the owner filter ""
(a user_id filter whose value is the empty string) returns the vlog owned by
"a", a record whose user_id does not equal the filter value. -/
theorem claim_c3_counterexample :
    get_vlogs exDB3 (some "") 100
      = [some [("user_id", Value.str "a"),
               ("_id", Value.str "aaaaaaaaaaaaaaaaaaaaaaaa")]]
      ∧ Value.str "a" ≠ Value.str "" := by decide

/-- A database holding vlogs owned by "a" and by "b". -/
def exDB3b : DB :=
  ⟨[[("user_id", Value.str "a"),
     ("_id", Value.oid ⟨"aaaaaaaaaaaaaaaaaaaaaaaa"⟩)],
    [("user_id", Value.str "b"),
     ("_id", Value.oid ⟨"bbbbbbbbbbbbbbbbbbbbbbbb"⟩)]], [], []⟩

/-- Claim C3 (amended) instantiated: filtering exDB3b by owner "a" yields
records whose user_id is "a". -/
theorem claim_c3_witness :
    getField [("user_id", Value.str "a"),
              ("_id", Value.str "aaaaaaaaaaaaaaaaaaaaaaaa")] "user_id"
      = some (Value.str "a") :=
  (claim_c3 exDB3b "a" 100 (by decide)).1
    (some [("user_id", Value.str "a"),
           ("_id", Value.str "aaaaaaaaaaaaaaaaaaaaaaaa")])
    (by decide) _ rfl

/-- Claim C5: for the video download, an identifier string that bson cannot
parse yields the malformed-identifier (400) error, distinct from not-found,
while a well-formed identifier that resolves to no stored record yields the
not-found (404) error. -/
theorem claim_c5 (db : DB) (s : String) :
    (parseObjectId s = none →
      download_vlog_video true db s = DownloadResult.invalidId)
      ∧ (∀ oid, parseObjectId s = some oid →
          find_one db.vlogs [("_id", Value.oid oid)] = none →
          download_vlog_video true db s
            = DownloadResult.notFound "Vlog not found")
      ∧ (∀ msg, DownloadResult.invalidId ≠ DownloadResult.notFound msg) := by
  refine ⟨?_, ?_, ?_⟩
  · intro h
    simp [download_vlog_video, h]
  · intro oid h1 h2
    simp [download_vlog_video, h1, h2]
  · intro msg
    simp

/-- The empty database. -/
def emptyDB : DB := ⟨[], [], []⟩

/-- Claim C5 instantiated: "zz" is malformed (400) and a well-formed
identifier matching no stored record gives 404. -/
theorem claim_c5_witness :
    download_vlog_video true emptyDB "zz" = DownloadResult.invalidId
      ∧ download_vlog_video true emptyDB "000000000000000000000000"
        = DownloadResult.notFound "Vlog not found" :=
  ⟨(claim_c5 emptyDB "zz").1 (by decide),
   (claim_c5 emptyDB "000000000000000000000000").2.1
     ⟨"000000000000000000000000"⟩ (by decide) (by decide)⟩

/-- Claim C6: a stored vlog whose video_data is absent, None, or the empty
string downloads as not-found — the same 404 status as a missing record —
never as a decode error. -/
theorem claim_c6 (db : DB) (s : String) (oid : ObjectId) (vlog : Doc)
    (h1 : parseObjectId s = some oid)
    (h2 : find_one db.vlogs [("_id", Value.oid oid)] = some vlog)
    (h3 : getField vlog "video_data" = none
      ∨ getField vlog "video_data" = some Value.none_
      ∨ getField vlog "video_data" = some (Value.str "")) :
    download_vlog_video true db s
        = DownloadResult.notFound "No video data available for this vlog"
      ∧ statusOf (download_vlog_video true db s)
        = statusOf (DownloadResult.notFound "Vlog not found") := by
  have hres : download_vlog_video true db s
      = DownloadResult.notFound "No video data available for this vlog" := by
    rcases h3 with h3 | h3 | h3 <;>
      simp [download_vlog_video, h1, h2, h3, pyTruthy]
  refine ⟨hres, ?_⟩
  rw [hres]
  rfl

/-- A database holding one vlog with no video payload. -/
def exDB6 : DB :=
  ⟨[[("user_id", Value.str "u"),
     ("video_data", Value.none_),
     ("_id", Value.oid ⟨"cccccccccccccccccccccccc"⟩)]], [], []⟩

/-- Claim C6 instantiated at a stored vlog whose video_data is None. -/
theorem claim_c6_witness :
    download_vlog_video true exDB6 "cccccccccccccccccccccccc"
        = DownloadResult.notFound "No video data available for this vlog"
      ∧ statusOf (download_vlog_video true exDB6 "cccccccccccccccccccccccc")
        = statusOf (DownloadResult.notFound "Vlog not found") :=
  claim_c6 exDB6 "cccccccccccccccccccccccc" ⟨"cccccccccccccccccccccccc"⟩
    [("user_id", Value.str "u"), ("video_data", Value.none_),
     ("_id", Value.oid ⟨"cccccccccccccccccccccccc"⟩)]
    (by decide) (by decide) (Or.inr (Or.inl (by decide)))

/-- Claim C7: for a stored vlog whose video_data is a nonempty base64
string, the download returns the decoded bytes with the video/mp4 media
type and the attachment filename vlog_<id>.mp4 exactly when the payload
decodes, and signals the 500 data-integrity error when it does not. -/
theorem claim_c7 (db : DB) (s : String) (oid : ObjectId) (vlog : Doc)
    (payload : String)
    (h1 : parseObjectId s = some oid)
    (h2 : find_one db.vlogs [("_id", Value.oid oid)] = some vlog)
    (h3 : getField vlog "video_data" = some (Value.str payload))
    (h4 : payload ≠ "") :
    (∀ bs, b64decode payload = some bs →
      download_vlog_video true db s = DownloadResult.ok bs "video/mp4"
        ("attachment; filename=vlog_" ++ s ++ ".mp4"))
      ∧ (b64decode payload = none →
        download_vlog_video true db s = DownloadResult.decodeError) := by
  constructor
  · intro bs hb
    simp [download_vlog_video, h1, h2, h3, pyTruthy, h4, hb]
  · intro hb
    simp [download_vlog_video, h1, h2, h3, pyTruthy, h4, hb]

/-- A database holding a vlog with a decodable base64 payload and one with
an undecodable payload. -/
def exDB7 : DB :=
  ⟨[[("user_id", Value.str "u"),
     ("video_data", Value.str "AAAA"),
     ("_id", Value.oid ⟨"dddddddddddddddddddddddd"⟩)],
    [("user_id", Value.str "u"),
     ("video_data", Value.str "A"),
     ("_id", Value.oid ⟨"eeeeeeeeeeeeeeeeeeeeeeee"⟩)]], [], []⟩

/-- Claim C7 instantiated: "AAAA" decodes to three zero bytes and downloads
with the derived filename, while the undecodable payload "A" gives the 500
decode error. -/
theorem claim_c7_witness :
    download_vlog_video true exDB7 "dddddddddddddddddddddddd"
        = DownloadResult.ok [0, 0, 0] "video/mp4"
          ("attachment; filename=vlog_" ++ "dddddddddddddddddddddddd"
            ++ ".mp4")
      ∧ download_vlog_video true exDB7 "eeeeeeeeeeeeeeeeeeeeeeee"
        = DownloadResult.decodeError :=
  ⟨(claim_c7 exDB7 "dddddddddddddddddddddddd" ⟨"dddddddddddddddddddddddd"⟩
      [("user_id", Value.str "u"), ("video_data", Value.str "AAAA"),
       ("_id", Value.oid ⟨"dddddddddddddddddddddddd"⟩)] "AAAA"
      (by decide) (by decide) (by decide) (by decide)).1 [0, 0, 0]
      (by decide),
   (claim_c7 exDB7 "eeeeeeeeeeeeeeeeeeeeeeee" ⟨"eeeeeeeeeeeeeeeeeeeeeeee"⟩
      [("user_id", Value.str "u"), ("video_data", Value.str "A"),
       ("_id", Value.oid ⟨"eeeeeeeeeeeeeeeeeeeeeeee"⟩)] "A"
      (by decide) (by decide) (by decide) (by decide)).2 (by decide)⟩

/-- Claim C9 is violated by the code: the try block of download_vlog_video
also catches a store failure raised by the find_one lookup, so a store
failure on a well-formed identifier is reported with the 400
malformed-identifier response, not as a transient server error. -/
theorem claim_c9_failing :
    download_vlog_video false emptyDB "000000000000000000000000"
        = DownloadResult.invalidId
      ∧ statusOf
          (download_vlog_video false emptyDB "000000000000000000000000")
        = 400
      ∧ parseObjectId "000000000000000000000000"
        = some ⟨"000000000000000000000000"⟩ := by decide
